import Mathlib

/-!
Verification of the loan-allocation engine in `balancier.py` (repository
ben174/balancier), against its natural-language specification.

The program is Python 2: it relies on ordered comparisons between a number
and `None` (e.g. `loan.default_likelihood > self.effective_max_default_likelihood`
when the cap is unset, and `expected_yield > max_yield` when `max_yield` is
still `None` on line 144), which raise `TypeError` on Python 3.  We therefore
embed the Python 2 comparison semantics explicitly.

A second type fact matters: `read_data` builds every record from the raw CSV
strings, and only `Loan.__init__` / `Facility.__init__` convert their numeric
fields with `float(...)`.  `Covenant` converts nothing, so
`covenant.max_default_likelihood` — and hence the `max_default_likelihood`
field that `normalize_data` copies onto a bank or facility — is a *string*.
Comparisons between those cap strings are lexicographic, and a comparison
between a loan's float `default_likelihood` and a cap string follows Python 2
mixed-type ordering (numbers sort before every non-numeric object).

Floats are modelled as exact rationals (no numeric claim in scope depends on
binary rounding of the float representation).
-/

namespace Balancier

/-- A Python 2 run-time value as it appears in the comparisons of
`balancier.py`: `None`, a number (float), or a string. -/
inductive PyVal where
  | none : PyVal
  | num : ℚ → PyVal
  | str : String → PyVal
deriving DecidableEq

/-- Python's lexicographic `<` on strings, as the order on the underlying
character lists (identical to `String.lt`, stated on `List Char` so that the
kernel can evaluate it). -/
def pyStrLt (a b : String) : Bool := decide (a.data < b.data)

/-- Python 2 `<` on the values above: `None` is smaller than everything,
numbers are smaller than any non-numeric object, numbers compare numerically
and strings lexicographically (CPython 2 `default_3way_compare`). -/
def py2lt : PyVal → PyVal → Bool
  | PyVal.none, PyVal.none => false
  | PyVal.none, _ => true
  | _, PyVal.none => false
  | PyVal.num a, PyVal.num b => decide (a < b)
  | PyVal.num _, PyVal.str _ => true
  | PyVal.str _, PyVal.num _ => false
  | PyVal.str a, PyVal.str b => pyStrLt a b

/-- Python `a > b`, i.e. `b < a` under the same total order. -/
def py2gt (a b : PyVal) : Bool := py2lt b a

/-- Python truthiness of the values above: `None` and `0` and `""` are falsy. -/
def pyTruthy : PyVal → Bool
  | PyVal.none => false
  | PyVal.num q => decide (q ≠ 0)
  | PyVal.str s => decide (s ≠ "")

/-- View an optional string field (e.g. a `max_default_likelihood` slot that is
either `None` or a CSV string) as a Python value. -/
def strOpt : Option String → PyVal
  | Option.none => PyVal.none
  | some s => PyVal.str s

/-- View an optional number (e.g. `max_yield`, which starts as `None`) as a
Python value. -/
def numOpt : Option ℚ → PyVal
  | Option.none => PyVal.none
  | some q => PyVal.num q

/-- Python `x or y` on optional-string fields: `x` if truthy, else `y`. -/
def pyOr (x y : Option String) : Option String :=
  if pyTruthy (strOpt x) then x else y

/-- Python `min(a, b)` on two strings: the lexicographically smaller one,
keeping the first argument on ties. -/
def pyMin (a b : String) : String := if pyStrLt b a then b else a

/-- Python 2 `int(round(x))` (line 87): round to the nearest integer, halves
away from zero; `int` of the already-integral result is exact. -/
def pyRound (q : ℚ) : ℤ := if q < 0 then -⌊-q + 1/2⌋ else ⌊q + 1/2⌋

/-- `Bank` (lines 107-112): only the fields the allocation phase reads.
`banned_states` starts `[]` and `max_default_likelihood` starts `None`; both
are filled by `normalize_data` from covenant CSV strings. -/
structure Bank where
  banned_states : List String
  max_default_likelihood : Option String
deriving DecidableEq

/-- `Loan` (lines 122-129).  `amount`, `default_likelihood`, `interest_rate`
are converted with `float(...)`; `state` stays a string;
`assigned_facility` / `expected_yield` start `None`.  The source stores the
facility object itself in `assigned_facility`; we store its index in the
facilities list. -/
structure Loan where
  amount : ℚ
  default_likelihood : ℚ
  interest_rate : ℚ
  state : String
  assigned_facility : Option Nat
  expected_yield : Option ℚ
deriving DecidableEq

/-- `Facility` (lines 18-26).  `amount` and `interest_rate` are converted with
`float(...)`; `banned_states` starts `[]`, `max_default_likelihood` starts
`None` (normalization fills them from covenant CSV strings); `bank` is the
parent bank resolved by `normalize_data` (banks are not mutated during the
assignment phase, so the resolved bank is carried inline). -/
structure Facility where
  amount : ℚ
  interest_rate : ℚ
  banned_states : List String
  max_default_likelihood : Option String
  bank : Bank
  assigned_loans : List Loan
deriving DecidableEq

/-- `Facility.effective_banned_states` (lines 28-33):
`self.banned_states + self.bank.banned_states`. -/
def Facility.effective_banned_states (self : Facility) : List String :=
  self.banned_states ++ self.bank.banned_states

/-- `Facility.effective_max_default_likelihood` (lines 35-42):
`if self.bank.max_default_likelihood and self.max_default_likelihood:
   return min(self.max_default_likelihood, self.bank.max_default_likelihood)
 return self.bank.max_default_likelihood or self.max_default_likelihood`. -/
def Facility.effective_max_default_likelihood (self : Facility) : Option String :=
  if pyTruthy (strOpt self.bank.max_default_likelihood)
      && pyTruthy (strOpt self.max_default_likelihood) then
    match self.max_default_likelihood, self.bank.max_default_likelihood with
    | some m, some b => some (pyMin m b)
    | _, _ => Option.none
  else pyOr self.bank.max_default_likelihood self.max_default_likelihood

/-- `Facility.validate_loan` (lines 44-68): three short-circuiting checks.
The second check compares the loan's float `default_likelihood` with the
effective cap, which is `None` or a CSV string — Python 2 mixed-type order. -/
def Facility.validate_loan (self : Facility) (loan : Loan) : Bool :=
  if self.effective_banned_states.contains loan.state then false
  else if py2gt (PyVal.num loan.default_likelihood)
      (strOpt self.effective_max_default_likelihood) then false
  else if loan.amount > self.amount then false
  else true

/-- `Facility.calculate_yield_for_loan` (lines 70-77). -/
def Facility.calculate_yield_for_loan (self : Facility) (loan : Loan) : ℚ :=
  (1 - loan.default_likelihood) * loan.interest_rate * loan.amount
    - loan.default_likelihood * loan.amount
    - self.interest_rate * loan.amount

/-- The accumulation loop of `calculate_total_yield` (lines 84-86):
`total = 0; for loan in self.assigned_loans: total += loan.expected_yield`.
In the source every assigned loan has `expected_yield` set (`assign_loan`
sets it on the stored object); `getD 0` is the value of the model on the
unreachable unset case. -/
def Facility.assignedTotal (self : Facility) : ℚ :=
  self.assigned_loans.foldl (fun total loan => total + loan.expected_yield.getD 0) 0

/-- `Facility.calculate_total_yield` (lines 79-87): `int(round(total))`. -/
def Facility.calculate_total_yield (self : Facility) : ℤ :=
  pyRound self.assignedTotal

/-- `Facility.assign_loan` (lines 89-96): append the loan to
`assigned_loans`, set `loan.assigned_facility` (here: the facility's index
`selfIdx`) and `loan.expected_yield`, and decrement `amount`.  The appended
list entry is the same mutated loan object, so it carries the two fields
just set. -/
def Facility.assign_loan (self : Facility) (loan : Loan) (expected_yield : ℚ)
    (selfIdx : Nat) : Facility × Loan :=
  let loan2 := { loan with
    assigned_facility := some selfIdx, expected_yield := some expected_yield }
  ({ self with
      assigned_loans := self.assigned_loans ++ [loan2],
      amount := self.amount - loan.amount },
   loan2)

/-- The selection test of line 144:
`if not expected_yield or expected_yield > max_yield`. -/
def selCond (expected_yield : ℚ) (max_yield : Option ℚ) : Bool :=
  !(pyTruthy (PyVal.num expected_yield))
    || py2gt (PyVal.num expected_yield) (numOpt max_yield)

/-- The facility loop of `Loan.assign` (lines 135-153).  `max_yield` and
`selected_facility` are always assigned together (lines 145-146), so they are
carried as one optional pair (yield, facility index); `i` is the index of the
head of the remaining list.  Line 142 binds `expected_yield` once; it is
inlined here.  The loop does not mutate any facility. -/
def selectFacility (loan : Loan) : List Facility → Nat → Option (ℚ × Nat) → Option (ℚ × Nat)
  | [], _, best => best
  | f :: rest, i, best =>
    if f.validate_loan loan then
      if selCond (f.calculate_yield_for_loan loan) (best.map Prod.fst) then
        selectFacility loan rest (i + 1) (some (f.calculate_yield_for_loan loan, i))
      else selectFacility loan rest (i + 1) best
    else selectFacility loan rest (i + 1) best

/-- `Loan.assign` (lines 131-158).  Returns the updated facilities list, the
updated loan, and the Python return value: `None` when nothing was selected
(line 156), and otherwise the loop variable `facility` after the loop (line
158), i.e. the LAST facility of the list — modelled as its index
`facilities.length - 1`, which need not be the selected facility's index. -/
def Loan.assign (self : Loan) (facilities : List Facility) :
    List Facility × Loan × Option Nat :=
  match selectFacility self facilities 0 Option.none with
  | Option.none => (facilities, self, Option.none)
  | some (max_yield, i) =>
    match facilities[i]? with
    | some f =>
      let p := f.assign_loan self max_yield i
      (facilities.set i p.1, p.2, some (facilities.length - 1))
    | Option.none => (facilities, self, Option.none)

/-- `Balancier.make_assignments` (lines 212-215): process the loans in input
order, threading the facility state; also collect the processed loans. -/
def make_assignments : List Loan → List Facility → List Facility × List Loan
  | [], facilities => (facilities, [])
  | loan :: rest, facilities =>
    let r := loan.assign facilities
    let rr := make_assignments rest r.1
    (rr.1, r.2.1 :: rr.2)

/-- The `max_default_likelihood` branch of the covenant loop of
`normalize_data` (lines 206-210), for one target entity: if the covenant's
value (a CSV string) is truthy, and the entity's current value is `None` or
lexicographically smaller than the covenant's, overwrite it with the
covenant's value. -/
def applyCovenantMDL (entity : Option String) (covenant : String) : Option String :=
  if pyTruthy (PyVal.str covenant) then
    match entity with
    | Option.none => some covenant
    | some e => if pyStrLt e covenant then some covenant else some e
  else entity

/-- The effect of `normalize_data` on one entity's `max_default_likelihood`,
given the `max_default_likelihood` strings of the covenants targeting it, in
input order (the entity starts with the field `None`). -/
def normalizeMDL (covenants : List String) : Option String :=
  covenants.foldl applyCovenantMDL Option.none

/-- Sum of the `amount` fields of a list of loans. -/
def sumAmounts (loans : List Loan) : ℚ := (loans.map Loan.amount).sum

/-! ### Helper lemmas -/

theorem pyStrLt_iff (a b : String) : pyStrLt a b = true ↔ a < b := by
  rw [pyStrLt, decide_eq_true_iff]
  exact (String.lt_iff_toList_lt).symm

theorem pyMin_eq_min (a b : String) : pyMin a b = min a b := by
  rw [pyMin, min_def]
  by_cases h : pyStrLt b a = true
  · have hba : b < a := (pyStrLt_iff b a).mp h
    rw [if_pos h, if_neg (not_le.mpr hba)]
  · have hab : a ≤ b := not_lt.mp fun hh => h ((pyStrLt_iff b a).mpr hh)
    rw [if_neg h, if_pos hab]

theorem validate_amount_le {f : Facility} {l : Loan}
    (h : f.validate_loan l = true) : l.amount ≤ f.amount := by
  rw [Facility.validate_loan] at h
  split_ifs at h with h1 h2 h3
  exact not_lt.mp h3

theorem selectFacility_sound (loan : Loan) (fs : List Facility) :
    ∀ (i0 : Nat) (acc : Option (ℚ × Nat)) (y : ℚ) (j : Nat),
      selectFacility loan fs i0 acc = some (y, j) →
      acc = some (y, j) ∨
        ∃ k f, fs[k]? = some f ∧ j = i0 + k ∧ f.validate_loan loan = true ∧
          y = f.calculate_yield_for_loan loan := by
  induction fs with
  | nil => intro i0 acc y j h; exact Or.inl h
  | cons f rest ih =>
    intro i0 acc y j h
    simp only [selectFacility] at h
    by_cases hv : f.validate_loan loan = true
    · rw [if_pos hv] at h
      by_cases hc : selCond (f.calculate_yield_for_loan loan) (acc.map Prod.fst) = true
      · rw [if_pos hc] at h
        rcases ih (i0 + 1) (some (f.calculate_yield_for_loan loan, i0)) y j h with
          heq | ⟨k, g, hg, hj, hval, hy⟩
        · right
          have hpp := Prod.ext_iff.mp (Option.some.inj heq)
          refine ⟨0, f, by simp, ?_, hv, hpp.1.symm⟩
          have := hpp.2
          omega
        · right
          exact ⟨k + 1, g, by simpa using hg, by omega, hval, hy⟩
      · rw [if_neg hc] at h
        rcases ih _ _ _ _ h with heq | ⟨k, g, hg, hj, hval, hy⟩
        · exact Or.inl heq
        · right; exact ⟨k + 1, g, by simpa using hg, by omega, hval, hy⟩
    · rw [if_neg hv] at h
      rcases ih _ _ _ _ h with heq | ⟨k, g, hg, hj, hval, hy⟩
      · exact Or.inl heq
      · right; exact ⟨k + 1, g, by simpa using hg, by omega, hval, hy⟩

theorem selectFacility_spec (loan : Loan) (fs : List Facility) (y : ℚ) (i : Nat)
    (h : selectFacility loan fs 0 Option.none = some (y, i)) :
    ∃ f, fs[i]? = some f ∧ f.validate_loan loan = true ∧
      y = f.calculate_yield_for_loan loan := by
  rcases selectFacility_sound loan fs 0 Option.none y i h with h' | ⟨k, f, hf, hk, hval, hy⟩
  · exact Option.noConfusion h'
  · exact ⟨f, by rwa [hk, Nat.zero_add], hval, hy⟩

theorem assign_eq_of_select_none {l : Loan} {fs : List Facility}
    (h : selectFacility l fs 0 Option.none = Option.none) :
    l.assign fs = (fs, l, Option.none) := by
  simp [Loan.assign, h]

theorem assign_eq_of_select_some {l : Loan} {fs : List Facility} {y : ℚ} {i : Nat}
    {f : Facility} (h : selectFacility l fs 0 Option.none = some (y, i))
    (hf : fs[i]? = some f) :
    l.assign fs = (fs.set i (f.assign_loan l y i).1, (f.assign_loan l y i).2,
      some (fs.length - 1)) := by
  simp [Loan.assign, h, hf]

theorem assign_length (l : Loan) (fs : List Facility) :
    ((l.assign fs).1).length = fs.length := by
  cases hsel : selectFacility l fs 0 Option.none with
  | none => rw [assign_eq_of_select_none hsel]
  | some p =>
    obtain ⟨y, i⟩ := p
    obtain ⟨f, hf, -, -⟩ := selectFacility_spec l fs y i hsel
    rw [assign_eq_of_select_some hsel hf]
    exact List.length_set fs i _

theorem sumAmounts_append (xs ys : List Loan) :
    sumAmounts (xs ++ ys) = sumAmounts xs + sumAmounts ys := by
  simp [sumAmounts]

theorem assign_account (l : Loan) (fs : List Facility) (k : Nat) (f₀ f' : Facility)
    (h0 : fs[k]? = some f₀) (h1 : ((l.assign fs).1)[k]? = some f') :
    f'.amount + sumAmounts f'.assigned_loans = f₀.amount + sumAmounts f₀.assigned_loans := by
  cases hsel : selectFacility l fs 0 Option.none with
  | none =>
    rw [assign_eq_of_select_none hsel] at h1
    rw [h0] at h1
    rw [Option.some.inj h1]
  | some p =>
    obtain ⟨y, i⟩ := p
    obtain ⟨f, hf, hval, hy⟩ := selectFacility_spec l fs y i hsel
    rw [assign_eq_of_select_some hsel hf] at h1
    by_cases hk : i = k
    · subst hk
      have hlt : i < fs.length := (List.getElem?_eq_some_iff.mp hf).1
      rw [List.getElem?_set_self hlt] at h1
      have hff : f' = (f.assign_loan l y i).1 := (Option.some.inj h1).symm
      have hf₀ : f₀ = f := by rw [hf] at h0; exact (Option.some.inj h0).symm
      rw [hff, hf₀]
      simp only [Facility.assign_loan, sumAmounts_append]
      simp only [sumAmounts, List.map_cons, List.map_nil, List.sum_cons, List.sum_nil]
      ring
    · rw [List.getElem?_set_ne hk] at h1
      rw [h0] at h1
      rw [Option.some.inj h1]

theorem assign_nonneg (l : Loan) (fs : List Facility)
    (h : ∀ f ∈ fs, 0 ≤ f.amount) : ∀ f' ∈ (l.assign fs).1, 0 ≤ f'.amount := by
  intro f' hf'
  cases hsel : selectFacility l fs 0 Option.none with
  | none =>
    rw [assign_eq_of_select_none hsel] at hf'
    exact h f' hf'
  | some p =>
    obtain ⟨y, i⟩ := p
    obtain ⟨f, hfi, hval, hy⟩ := selectFacility_spec l fs y i hsel
    rw [assign_eq_of_select_some hsel hfi] at hf'
    rcases List.mem_or_eq_of_mem_set hf' with hmem | heq
    · exact h f' hmem
    · subst heq
      have h1 := validate_amount_le hval
      have h2 := h f (List.getElem?_mem hfi)
      show (0 : ℚ) ≤ f.amount - l.amount
      linarith

theorem run_account (loans : List Loan) :
    ∀ (fs : List Facility) (k : Nat) (f₀ f' : Facility),
      fs[k]? = some f₀ → ((make_assignments loans fs).1)[k]? = some f' →
      f'.amount + sumAmounts f'.assigned_loans = f₀.amount + sumAmounts f₀.assigned_loans := by
  induction loans with
  | nil =>
    intro fs k f₀ f' h0 h1
    simp only [make_assignments] at h1
    rw [h0] at h1
    rw [Option.some.inj h1]
  | cons l ls ih =>
    intro fs k f₀ f' h0 h1
    simp only [make_assignments] at h1
    have hk : k < fs.length := (List.getElem?_eq_some_iff.mp h0).1
    have hk1 : k < ((l.assign fs).1).length := by rw [assign_length]; exact hk
    obtain ⟨f₁, hf₁⟩ : ∃ f₁, ((l.assign fs).1)[k]? = some f₁ :=
      ⟨_, List.getElem?_eq_getElem hk1⟩
    have e1 := assign_account l fs k f₀ f₁ h0 hf₁
    have e2 := ih ((l.assign fs).1) k f₁ f' hf₁ h1
    linarith

theorem run_nonneg (loans : List Loan) :
    ∀ fs : List Facility, (∀ f ∈ fs, 0 ≤ f.amount) →
      ∀ f' ∈ (make_assignments loans fs).1, 0 ≤ f'.amount := by
  induction loans with
  | nil =>
    intro fs h f' hf'
    simp only [make_assignments] at hf'
    exact h f' hf'
  | cons l ls ih =>
    intro fs h f' hf'
    simp only [make_assignments] at hf'
    exact ih _ (assign_nonneg l fs h) f' hf'

theorem assign_loan_fields (l : Loan) (fs : List Facility) :
    (l.assign fs).2.1 = l ∨
      ∃ i y, ((l.assign fs).2.1).assigned_facility = some i ∧
        ((l.assign fs).2.1).expected_yield = some y := by
  cases hsel : selectFacility l fs 0 Option.none with
  | none => rw [assign_eq_of_select_none hsel]; left; rfl
  | some p =>
    obtain ⟨y, i⟩ := p
    obtain ⟨f, hf, -, -⟩ := selectFacility_spec l fs y i hsel
    rw [assign_eq_of_select_some hsel hf]
    right
    exact ⟨i, y, rfl, rfl⟩

theorem run_fields (loans : List Loan) :
    ∀ fs : List Facility,
      (∀ l ∈ loans, l.assigned_facility = Option.none ∧ l.expected_yield = Option.none) →
      ∀ l' ∈ (make_assignments loans fs).2,
        l'.assigned_facility.isSome = l'.expected_yield.isSome := by
  induction loans with
  | nil =>
    intro fs h l' hl'
    simp only [make_assignments, List.not_mem_nil] at hl'
  | cons l ls ih =>
    intro fs h l' hl'
    simp only [make_assignments, List.mem_cons] at hl'
    rcases hl' with rfl | hl'
    · rcases assign_loan_fields l fs with heq | ⟨i, y, h1, h2⟩
      · rw [heq]
        have hh := h l (List.mem_cons_self l ls)
        rw [hh.1, hh.2]
        rfl
      · rw [h1, h2]
        rfl
    · exact ih _ (fun x hx => h x (List.mem_cons_of_mem l hx)) l' hl'

theorem round_half_up_nonneg (q : ℚ) :
    |((⌊q + 1/2⌋ : ℤ) : ℚ) - q| ≤ 1/2 ∧
      (|((⌊q + 1/2⌋ : ℤ) : ℚ) - q| < 1/2 ∨ ((⌊q + 1/2⌋ : ℤ) : ℚ) = q + 1/2) := by
  have h1 : ((⌊q + 1/2⌋ : ℤ) : ℚ) ≤ q + 1/2 := Int.floor_le _
  have h2 : q + 1/2 < ((⌊q + 1/2⌋ : ℤ) : ℚ) + 1 := Int.lt_floor_add_one _
  constructor
  · rw [abs_le]; constructor <;> linarith
  · rcases lt_or_eq_of_le h1 with h | h
    · left; rw [abs_lt]; constructor <;> linarith
    · right; exact h

theorem pyRound_spec (q : ℚ) :
    |((pyRound q : ℤ) : ℚ) - q| ≤ 1/2 ∧
      (|((pyRound q : ℤ) : ℚ) - q| < 1/2 ∨ |((pyRound q : ℤ) : ℚ)| = |q| + 1/2) := by
  by_cases hq : q < 0
  · have hdef : pyRound q = -⌊-q + 1/2⌋ := if_pos hq
    obtain ⟨ha, hb⟩ := round_half_up_nonneg (-q)
    have hs2 : -q + 1/2 < ((⌊-q + 1/2⌋ : ℤ) : ℚ) + 1 := Int.lt_floor_add_one _
    have hfl : (-1 : ℚ) < ((⌊-q + 1/2⌋ : ℤ) : ℚ) := by linarith
    have hfl' : (-1 : ℤ) < ⌊-q + 1/2⌋ := by exact_mod_cast hfl
    have hsnn : (0 : ℚ) ≤ ((⌊-q + 1/2⌋ : ℤ) : ℚ) := by
      exact_mod_cast (by omega : (0 : ℤ) ≤ ⌊-q + 1/2⌋)
    rw [hdef]
    push_cast
    constructor
    · calc |-((⌊-q + 1/2⌋ : ℤ) : ℚ) - q| = |((⌊-q + 1/2⌋ : ℤ) : ℚ) - -q| := by
            rw [← abs_neg]; ring_nf
        _ ≤ 1/2 := ha
    · rcases hb with hlt | heq
      · left
        calc |-((⌊-q + 1/2⌋ : ℤ) : ℚ) - q| = |((⌊-q + 1/2⌋ : ℤ) : ℚ) - -q| := by
              rw [← abs_neg]; ring_nf
          _ < 1/2 := hlt
      · right
        rw [abs_neg, abs_of_nonneg hsnn, abs_of_neg hq, heq]
  · have hdef : pyRound q = ⌊q + 1/2⌋ := if_neg hq
    push_neg at hq
    obtain ⟨ha, hb⟩ := round_half_up_nonneg q
    have h2 : q + 1/2 < ((⌊q + 1/2⌋ : ℤ) : ℚ) + 1 := Int.lt_floor_add_one _
    have hfl : (-1 : ℚ) < ((⌊q + 1/2⌋ : ℤ) : ℚ) := by linarith
    have hfl' : (-1 : ℤ) < ⌊q + 1/2⌋ := by exact_mod_cast hfl
    have hsnn : (0 : ℚ) ≤ ((⌊q + 1/2⌋ : ℤ) : ℚ) := by
      exact_mod_cast (by omega : (0 : ℤ) ≤ ⌊q + 1/2⌋)
    rw [hdef]
    refine ⟨ha, ?_⟩
    rcases hb with hlt | heq
    · left; exact hlt
    · right
      rw [abs_of_nonneg hsnn, abs_of_nonneg hq, heq]

/-! ### Concrete inputs used by the claim theorems -/

unseal Rat.add Rat.sub Rat.mul Rat.inv

/-- A bank with no restrictions (fresh `Bank.__init__` state after a
normalization that attached no covenant to it). -/
def trivialBank : Bank := { banned_states := [], max_default_likelihood := Option.none }

def C1loan : Loan :=
  { amount := 100, default_likelihood := 0, interest_rate := 1, state := "CA",
    assigned_facility := Option.none, expected_yield := Option.none }

def C2facility : Facility :=
  { amount := 1000, interest_rate := 1, banned_states := [],
    max_default_likelihood := Option.none, bank := trivialBank, assigned_loans := [] }

def C3loan : Loan :=
  { amount := 5, default_likelihood := 0, interest_rate := 1, state := "CA",
    assigned_facility := Option.none, expected_yield := Option.none }

/-- Eligible for `C3loan` with expected yield `(1-0)*1*5 - 0*5 - 0*5 = 5`. -/
def C3facilityA : Facility :=
  { amount := 10, interest_rate := 0, banned_states := [],
    max_default_likelihood := some "1", bank := trivialBank, assigned_loans := [] }

/-- Eligible for `C3loan` with expected yield `(1-0)*1*5 - 0*5 - 1*5 = 0`. -/
def C3facilityB : Facility :=
  { amount := 10, interest_rate := 1, banned_states := [],
    max_default_likelihood := some "1", bank := trivialBank, assigned_loans := [] }

/-- A loan that is certain to default (`default_likelihood = 1.0`). -/
def C4loan : Loan :=
  { amount := 100, default_likelihood := 1, interest_rate := 1, state := "CA",
    assigned_facility := Option.none, expected_yield := Option.none }

/-- A facility whose cap, attached by normalization from a covenant CSV row,
is the string `"0.3"`. -/
def C4facility : Facility :=
  { amount := 1000, interest_rate := 0, banned_states := [],
    max_default_likelihood := some "0.3", bank := trivialBank, assigned_loans := [] }

/-! ### Claims -/

/-- C1: the spec says a covenant's max-default-likelihood updates the target
entity's value to the *minimum* of the current value and the covenant's value,
so that after normalization the entity holds the smallest covenant value.  The
code (lines 206-210) does the opposite: it overwrites the entity's value
whenever the current value is *smaller* than the covenant's, so the entity
ends up with the largest value.  Concretely, covenants `"0.05"` then `"0.09"`
leave the entity at `"0.09"`, although `"0.05" < "0.09"`. -/
theorem C1_normalize_keeps_largest_cap :
    applyCovenantMDL (some "0.05") "0.09" = some "0.09" ∧
    normalizeMDL ["0.05", "0.09"] = some "0.09" ∧
    pyStrLt "0.05" "0.09" = true := by
  refine ⟨?_, ?_, ?_⟩ <;> decide

/-- C2: the spec says that when a facility's effective max default likelihood
is unset the default-likelihood check always passes.  In the code the check
is `loan.default_likelihood > None`, which is `True` in Python 2, so
`validate_loan` returns `False` for *every* loan against such a facility —
here a loan whose state is not banned and whose amount fits, so neither of
the other two checks is the cause. -/
theorem C2_unset_cap_rejects_all :
    C2facility.effective_max_default_likelihood = Option.none ∧
    C2facility.validate_loan C1loan = false ∧
    C2facility.effective_banned_states.contains C1loan.state = false ∧
    C1loan.amount ≤ C2facility.amount := by
  refine ⟨?_, ?_, ?_, ?_⟩ <;> decide

/-- C3 (counterexample): the claim says a facility whose computed expected
yield is exactly zero never replaces an already-selected facility.  In the
code the selection test is `if not expected_yield or ...`, so a zero yield
*always* wins: scanning `[C3facilityA, C3facilityB]`, facility 0 is selected
with yield 5, and then facility 1, whose yield is 0, replaces it. -/
theorem C3_zero_yield_replaces_selection :
    selectFacility C3loan [C3facilityA] 0 Option.none = some (5, 0) ∧
    selectFacility C3loan [C3facilityA, C3facilityB] 0 Option.none = some (0, 1) ∧
    C3facilityA.calculate_yield_for_loan C3loan = 5 ∧
    C3facilityB.calculate_yield_for_loan C3loan = 0 := by
  refine ⟨?_, ?_, ?_, ?_⟩ <;> decide

/-- C3 (amended): in the selection test of line 144 an eligible facility
becomes the new best exactly when its computed yield is zero (falsy), or
best-yield is unset (`None`), or its yield is strictly greater than the
current best-yield; in particular a zero-yield facility always replaces the
current selection. -/
theorem C3_selection_condition (ey : ℚ) (best : Option ℚ) :
    selCond ey best = true ↔
      (ey = 0 ∨ best = Option.none ∨ ∃ m, best = some m ∧ m < ey) := by
  cases best with
  | none => simp [selCond, pyTruthy, py2gt, py2lt, numOpt]
  | some m =>
    simp only [selCond, pyTruthy, py2gt, py2lt, numOpt, Bool.or_eq_true,
      Bool.not_eq_true', decide_eq_false_iff_not, not_not, decide_eq_true_eq]
    constructor
    · rintro (h | h)
      · exact Or.inl h
      · exact Or.inr (Or.inr ⟨m, rfl, h⟩)
    · rintro (h | h | ⟨m', hm', h⟩)
      · exact Or.inl h
      · exact Option.noConfusion h
      · have hmm := Option.some.inj hm'
        subst hmm
        exact Or.inr h

/-- C4: the spec says an assigned loan satisfied all three eligibility checks,
in particular that its default likelihood did not exceed the facility's set
cap.  The cap is a CSV *string* (`"0.3"`), and in Python 2
`loan.default_likelihood > "0.3"` is always `False` (numbers sort before
strings), so the check never rejects: a loan with default likelihood 1.0
(exceeding the 0.3 cap) is assigned to the facility. -/
theorem C4_assigned_loan_exceeds_cap :
    ((C4loan.assign [C4facility]).2.1).assigned_facility = some 0 ∧
    C4facility.effective_max_default_likelihood = some "0.3" ∧
    C4loan.default_likelihood = 1 := by
  refine ⟨?_, ?_, ?_⟩ <;> decide

/-- C9: the computed expected yield is exactly
`(1 − p)·r_loan·A − p·A − r_facility·A` with `p` the loan's default
likelihood, `r_loan` the loan's rate, `A` the loan's amount and `r_facility`
the facility's rate, with no rounding (the result is the exact rational). -/
theorem C9_expected_yield_formula (f : Facility) (l : Loan) :
    f.calculate_yield_for_loan l =
      (1 - l.default_likelihood) * l.interest_rate * l.amount
        - l.default_likelihood * l.amount - f.interest_rate * l.amount := rfl

/-- C5: after the assignment phase, every facility's amount equals its
initial amount minus the sum of the amounts of the loans assigned to it, and
— provided the initial amounts are nonnegative — the amount is nonnegative
after every prefix of the loan sequence (i.e. at every point of the run). -/
theorem C5_amount_accounting (loans : List Loan) (fs : List Facility)
    (hnn : ∀ f ∈ fs, 0 ≤ f.amount) (hempty : ∀ f ∈ fs, f.assigned_loans = []) :
    (∀ (k : Nat) (f₀ f' : Facility), fs[k]? = some f₀ →
      ((make_assignments loans fs).1)[k]? = some f' →
      f'.amount = f₀.amount - sumAmounts f'.assigned_loans)
    ∧ (∀ n, ∀ f' ∈ (make_assignments (loans.take n) fs).1, 0 ≤ f'.amount) := by
  constructor
  · intro k f₀ f' h0 h1
    have hacc := run_account loans fs k f₀ f' h0 h1
    have hz : f₀.assigned_loans = [] := hempty f₀ (List.getElem?_mem h0)
    rw [hz] at hacc
    have hzz : sumAmounts ([] : List Loan) = 0 := by simp [sumAmounts]
    rw [hzz] at hacc
    linarith
  · intro n f' hf'
    exact run_nonneg (loans.take n) fs hnn f' hf'

def C5loan : Loan :=
  { amount := 40, default_likelihood := 0, interest_rate := 1, state := "CA",
    assigned_facility := Option.none, expected_yield := Option.none }

def C5facility : Facility :=
  { amount := 100, interest_rate := 0, banned_states := [],
    max_default_likelihood := some "1", bank := trivialBank, assigned_loans := [] }

/-- Witness for C5 at a one-loan, one-facility run (the loan is assigned and
the facility ends with amount `100 - 40`). -/
theorem C5_amount_accounting_witness :
    (∀ f ∈ [C5facility], 0 ≤ f.amount) ∧ (∀ f ∈ [C5facility], f.assigned_loans = []) ∧
    ((∀ (k : Nat) (f₀ f' : Facility), [C5facility][k]? = some f₀ →
        ((make_assignments [C5loan] [C5facility]).1)[k]? = some f' →
        f'.amount = f₀.amount - sumAmounts f'.assigned_loans)
      ∧ (∀ n, ∀ f' ∈ (make_assignments ([C5loan].take n) [C5facility]).1, 0 ≤ f'.amount)) :=
  ⟨by decide, by decide, C5_amount_accounting [C5loan] [C5facility] (by decide) (by decide)⟩

/-- A loan record as it looks right after `assign_loan`: both assignment
fields set, with expected yield exactly 12.5. -/
def C6loanAssigned : Loan :=
  { amount := 100, default_likelihood := 0, interest_rate := 0, state := "CA",
    assigned_facility := some 0, expected_yield := some (25/2) }

def C6facility : Facility :=
  { amount := 0, interest_rate := 0, banned_states := [],
    max_default_likelihood := Option.none, bank := trivialBank,
    assigned_loans := [C6loanAssigned] }

/-- C6 (counterexample): the claim pins the rounding of
`calculate_total_yield` to round-half-to-even, predicting 12 for a single
assigned loan with expected yield 12.5.  Python 2's `round` rounds halves
away from zero, so the code reports 13. -/
theorem C6_half_rounds_to_thirteen :
    C6facility.calculate_total_yield = 13 ∧
    C6facility.calculate_total_yield ≠ 12 ∧
    C6loanAssigned.expected_yield = some (25/2) := by
  refine ⟨?_, ?_, ?_⟩ <;> decide

/-- C6 (amended): `calculate_total_yield` is the sum of the assigned loans'
expected yields rounded to the nearest integer with halves rounded AWAY FROM
ZERO (Python 2 `round`): the result is within 1/2 of the exact sum, and when
it is exactly 1/2 away its magnitude exceeds the sum's (so 12.5 reports 13,
not 12). -/
theorem C6_total_yield_rounds_half_away (f : Facility) :
    |((f.calculate_total_yield : ℤ) : ℚ) - f.assignedTotal| ≤ 1/2 ∧
      (|((f.calculate_total_yield : ℤ) : ℚ) - f.assignedTotal| < 1/2 ∨
        |((f.calculate_total_yield : ℤ) : ℚ)| = |f.assignedTotal| + 1/2) := by
  simpa only [Facility.calculate_total_yield] using pyRound_spec f.assignedTotal

/-- C7: a loan's `assigned_facility` and `expected_yield` are set together:
starting from loans with both fields unset, after processing any prefix of
the loan list both fields of every processed loan are either both unset or
both set; and a single `Loan.assign` either leaves the loan unchanged or sets
both fields at once. -/
theorem C7_fields_set_together (loans : List Loan) (fs : List Facility)
    (h : ∀ l ∈ loans, l.assigned_facility = Option.none ∧ l.expected_yield = Option.none) :
    (∀ n, ∀ l' ∈ (make_assignments (loans.take n) fs).2,
        l'.assigned_facility.isSome = l'.expected_yield.isSome)
    ∧ (∀ (l : Loan) (gs : List Facility), (l.assign gs).2.1 = l ∨
        ∃ i y, ((l.assign gs).2.1).assigned_facility = some i ∧
          ((l.assign gs).2.1).expected_yield = some y) := by
  constructor
  · intro n l' hl'
    exact run_fields (loans.take n) fs
      (fun x hx => h x (List.take_subset n loans hx)) l' hl'
  · intro l gs
    exact assign_loan_fields l gs

/-- Witness for C7 at a one-loan, one-facility run. -/
theorem C7_fields_set_together_witness :
    (∀ l ∈ [C5loan], l.assigned_facility = Option.none ∧ l.expected_yield = Option.none) ∧
    ((∀ n, ∀ l' ∈ (make_assignments ([C5loan].take n) [C5facility]).2,
        l'.assigned_facility.isSome = l'.expected_yield.isSome)
      ∧ (∀ (l : Loan) (gs : List Facility), (l.assign gs).2.1 = l ∨
          ∃ i y, ((l.assign gs).2.1).assigned_facility = some i ∧
            ((l.assign gs).2.1).expected_yield = some y)) :=
  ⟨by decide, C7_fields_set_together [C5loan] [C5facility] (by decide)⟩

/-- C8: `effective_banned_states` is the concatenation of the facility's and
the bank's banned-state lists (so each side is contained in it), and — for
cap values produced by normalization, which are never the empty string —
`effective_max_default_likelihood` is the minimum of the two caps when both
are set, the set one when only one is set, and unset when neither is set. -/
theorem C8_effective_constraints (f : Facility)
    (hb : f.bank.max_default_likelihood ≠ some "")
    (hm : f.max_default_likelihood ≠ some "") :
    (f.effective_banned_states = f.banned_states ++ f.bank.banned_states ∧
      (∀ s ∈ f.banned_states, s ∈ f.effective_banned_states) ∧
      (∀ s ∈ f.bank.banned_states, s ∈ f.effective_banned_states)) ∧
    ((∀ b m, f.bank.max_default_likelihood = some b → f.max_default_likelihood = some m →
        f.effective_max_default_likelihood = some (min m b)) ∧
      (∀ b, f.bank.max_default_likelihood = some b → f.max_default_likelihood = Option.none →
        f.effective_max_default_likelihood = some b) ∧
      (∀ m, f.bank.max_default_likelihood = Option.none → f.max_default_likelihood = some m →
        f.effective_max_default_likelihood = some m) ∧
      (f.bank.max_default_likelihood = Option.none → f.max_default_likelihood = Option.none →
        f.effective_max_default_likelihood = Option.none)) := by
  refine ⟨⟨rfl, ?_, ?_⟩, ?_, ?_, ?_, ?_⟩
  · intro s hs
    exact List.mem_append_left _ hs
  · intro s hs
    exact List.mem_append_right _ hs
  · intro b m hbb hmm
    have hb' : b ≠ "" := fun he => hb (by rw [hbb, he])
    have hm' : m ≠ "" := fun he => hm (by rw [hmm, he])
    rw [Facility.effective_max_default_likelihood, hbb, hmm]
    simp [strOpt, pyTruthy, hb', hm', pyMin_eq_min]
  · intro b hbb hmm
    have hb' : b ≠ "" := fun he => hb (by rw [hbb, he])
    rw [Facility.effective_max_default_likelihood, hbb, hmm]
    simp [strOpt, pyTruthy, pyOr, hb']
  · intro m hbb hmm
    rw [Facility.effective_max_default_likelihood, hbb, hmm]
    simp [strOpt, pyTruthy, pyOr]
  · intro hbb hmm
    rw [Facility.effective_max_default_likelihood, hbb, hmm]
    simp [strOpt, pyTruthy, pyOr]

def C8facility : Facility :=
  { amount := 0, interest_rate := 0, banned_states := ["NY"],
    max_default_likelihood := some "0.3",
    bank := { banned_states := ["CA"], max_default_likelihood := some "0.5" },
    assigned_loans := [] }

/-- Witness for C8 at a facility with cap "0.3" under a bank with cap "0.5"
and one banned state on each side. -/
theorem C8_effective_constraints_witness :
    C8facility.bank.max_default_likelihood ≠ some "" ∧
    C8facility.max_default_likelihood ≠ some "" ∧
    ((C8facility.effective_banned_states =
        C8facility.banned_states ++ C8facility.bank.banned_states ∧
      (∀ s ∈ C8facility.banned_states, s ∈ C8facility.effective_banned_states) ∧
      (∀ s ∈ C8facility.bank.banned_states, s ∈ C8facility.effective_banned_states)) ∧
    ((∀ b m, C8facility.bank.max_default_likelihood = some b →
        C8facility.max_default_likelihood = some m →
        C8facility.effective_max_default_likelihood = some (min m b)) ∧
      (∀ b, C8facility.bank.max_default_likelihood = some b →
        C8facility.max_default_likelihood = Option.none →
        C8facility.effective_max_default_likelihood = some b) ∧
      (∀ m, C8facility.bank.max_default_likelihood = Option.none →
        C8facility.max_default_likelihood = some m →
        C8facility.effective_max_default_likelihood = some m) ∧
      (C8facility.bank.max_default_likelihood = Option.none →
        C8facility.max_default_likelihood = Option.none →
        C8facility.effective_max_default_likelihood = Option.none))) :=
  ⟨by decide, by decide, C8_effective_constraints C8facility (by decide) (by decide)⟩

/-- C10: when a facility is selected, `Loan.assign` returns the loop
variable after the loop, i.e. the LAST facility of the iterated list (index
`length - 1`), not necessarily the selected one; when no facility is
eligible it returns `None`. -/
theorem C10_assign_returns_last (l : Loan) (fs : List Facility) :
    (selectFacility l fs 0 Option.none = Option.none → (l.assign fs).2.2 = Option.none)
    ∧ (∀ y i, selectFacility l fs 0 Option.none = some (y, i) →
        (l.assign fs).2.2 = some (fs.length - 1)) := by
  constructor
  · intro h
    rw [assign_eq_of_select_none h]
  · intro y i h
    obtain ⟨f, hf, -, -⟩ := selectFacility_spec l fs y i h
    rw [assign_eq_of_select_some h hf]

/-- A facility no loan of positive amount is eligible for (remaining amount 0). -/
def C10facilityBad : Facility :=
  { amount := 0, interest_rate := 0, banned_states := [],
    max_default_likelihood := some "1", bank := trivialBank, assigned_loans := [] }

/-- Witness for C10: facility 0 is selected, yet the returned value is the
index of the last facility (1), which is not the selected one. -/
theorem C10_assign_returns_last_witness :
    selectFacility C3loan [C3facilityA, C10facilityBad] 0 Option.none = some (5, 0) ∧
    (C3loan.assign [C3facilityA, C10facilityBad]).2.2 = some 1 :=
  ⟨by decide, (C10_assign_returns_last C3loan [C3facilityA, C10facilityBad]).2 5 0 (by decide)⟩

end Balancier
